import Mathlib

/-!
Shallow embedding of the CPU-scheduling simulator in src/Project1/main.go
(package main of the CSCE-4600 repository, first document of the file).

Modelling conventions:
- Go int64 values are modelled as Int. All quantities reached by the
  concrete inputs used below stay far inside the int64 range, so no
  wrap-around modelling is needed.
- Go float64 accumulators (totalWait, totalTurnaround, lastCompletion)
  only ever receive values converted from int64, so they are modelled as
  Int; the final averages, computed in Go by float64 division, are
  modelled as Rat. On the small integer values arising here float64
  arithmetic is exact, except that Go float64 division 0/0 yields NaN
  while Rat division by zero yields 0 (noted where it matters).
- The Go for-loops of SJFSchedule, SJFPrioritySchedule and RRSchedule are
  not structurally recursive, so they are embedded with an explicit fuel
  parameter; the loop returns none when the fuel runs out (which models
  non-termination of the Go loop) and some of the final state when the
  loop condition becomes false, exactly as in the source. The fuel bound
  schedulerFuel is generous enough for every concrete input used below.
- The output side (tablewriter rendering, io.Writer) is not modelled;
  each scheduler instead returns the data it would print: the schedule
  table rows (an entry is none when the Go code never assigned
  schedule[i], leaving it nil), the gantt slice, and the three averages.
-/

/-- Go struct Process (fields ProcessID, ArrivalTime, BurstDuration, Priority). -/
structure Process where
  processID : Int
  arrivalTime : Int
  burstDuration : Int
  priority : Int
deriving Repr, DecidableEq, Inhabited

/-- Go struct TimeSlice (fields PID, Start, Stop). -/
structure TimeSlice where
  pid : Int
  start : Int
  stop : Int
deriving Repr, DecidableEq, Inhabited

/-- One row of the printed schedule table: the seven values formatted by the
Go code (ID, Priority, Burst, Arrival, Wait, Turnaround, Exit), kept as
integers instead of strings. -/
structure Row where
  id : Int
  priority : Int
  burst : Int
  arrival : Int
  wait : Int
  turnaround : Int
  completion : Int
deriving Repr, DecidableEq

/-- Everything a scheduler hands to the output helpers: the table rows
(schedule, an entry is none when the Go slice entry stayed nil), the gantt
chart, and the three footer averages. -/
structure ScheduleResult where
  schedule : List (Option Row)
  gantt : List TimeSlice
  aveWait : Rat
  aveTurnaround : Rat
  aveThroughput : Rat
deriving Repr, DecidableEq

/-- Go func getBurstDurations. -/
def getBurstDurations (processes : List Process) : List Int :=
  processes.map (fun p => p.burstDuration)

/-! ## FCFSSchedule (main.go lines 78-128) -/

/-- The mutable locals of FCFSSchedule. waitingTime is part of the state
because the Go code only reassigns it when ArrivalTime is positive, letting
the previous value leak into the next iteration otherwise. -/
structure FCFSState where
  serviceTime : Int
  totalWait : Int
  totalTurnaround : Int
  lastCompletion : Int
  waitingTime : Int
  schedule : List (Option Row)
  gantt : List TimeSlice
deriving Repr, DecidableEq

def fcfsInit (n : Nat) : FCFSState :=
  { serviceTime := 0, totalWait := 0, totalTurnaround := 0, lastCompletion := 0,
    waitingTime := 0, schedule := List.replicate n none, gantt := [] }

/-- Body of the for-loop of FCFSSchedule at index i. -/
def fcfsStep (processes : List Process) (st : FCFSState) (i : Nat) : FCFSState :=
  let p := processes.getD i default
  let waitingTime := if p.arrivalTime > 0 then st.serviceTime - p.arrivalTime else st.waitingTime
  let totalWait := st.totalWait + waitingTime
  let start := waitingTime + p.arrivalTime
  let turnaround := p.burstDuration + waitingTime
  let totalTurnaround := st.totalTurnaround + turnaround
  let completion := p.burstDuration + p.arrivalTime + waitingTime
  let lastCompletion := completion
  let schedule := st.schedule.set i (some
    { id := p.processID, priority := p.priority, burst := p.burstDuration,
      arrival := p.arrivalTime, wait := waitingTime, turnaround := turnaround,
      completion := completion })
  let serviceTime := st.serviceTime + p.burstDuration
  let gantt := st.gantt ++ [{ pid := p.processID, start := start, stop := serviceTime }]
  { serviceTime := serviceTime, totalWait := totalWait, totalTurnaround := totalTurnaround,
    lastCompletion := lastCompletion, waitingTime := waitingTime,
    schedule := schedule, gantt := gantt }

/-- Go func FCFSSchedule: one pass over the processes in input order, then
the three averages (count over lastCompletion for throughput). -/
def FCFSSchedule (processes : List Process) : ScheduleResult :=
  let st := (List.range processes.length).foldl (fcfsStep processes) (fcfsInit processes.length)
  let count : Rat := (processes.length : Rat)
  { schedule := st.schedule, gantt := st.gantt,
    aveWait := (st.totalWait : Rat) / count,
    aveTurnaround := (st.totalTurnaround : Rat) / count,
    aveThroughput := count / (st.lastCompletion : Rat) }

/-! ## SJFSchedule (main.go lines 205-273) -/

/-- The mutable locals of SJFSchedule and SJFPrioritySchedule. completion is
both the time cursor and the value the outer loop compares against the
process count, exactly as in the source. -/
structure SJFState where
  serviceTime : Int
  totalWait : Int
  totalTurnaround : Int
  lastCompletion : Int
  waitingTime : Int
  remainingBurst : List Int
  schedule : List (Option Row)
  gantt : List TimeSlice
  completion : Int
deriving Repr, DecidableEq

def sjfInit (processes : List Process) : SJFState :=
  { serviceTime := 0, totalWait := 0, totalTurnaround := 0, lastCompletion := 0,
    waitingTime := 0, remainingBurst := getBurstDurations processes,
    schedule := List.replicate processes.length none, gantt := [], completion := 0 }

/-- The nextProcess selection loop of SJFSchedule (lines 221-229): among
indices with positive remaining burst that have arrived by the time cursor,
pick the one with strictly smallest remaining burst, earliest index winning
ties. none models nextProcess staying -1. -/
def sjfSelectNext (processes : List Process) (remainingBurst : List Int)
    (completion : Int) : Option Nat :=
  (List.range processes.length).foldl
    (fun nextProcess i =>
      if remainingBurst.getD i 0 > 0 ∧ (processes.getD i default).arrivalTime ≤ completion then
        match nextProcess with
        | none => some i
        | some j => if remainingBurst.getD i 0 < remainingBurst.getD j 0 then some i else nextProcess
      else nextProcess)
    none

/-- The outer for-loop of SJFSchedule (condition: completion strictly below
the number of processes). Fuel-indexed; some means the Go loop exited with
its condition false, none means the fuel ran out. -/
def sjfLoop (processes : List Process) : Nat → SJFState → Option SJFState
  | 0, _ => none
  | Nat.succ fuel, st =>
    if st.completion < (processes.length : Int) then
      match sjfSelectNext processes st.remainingBurst st.completion with
      | none => sjfLoop processes fuel { st with completion := st.completion + 1 }
      | some i =>
        let p := processes.getD i default
        let start := st.completion
        let serviceTime := st.serviceTime + 1
        let remainingBurst := st.remainingBurst.set i (st.remainingBurst.getD i 0 - 1)
        if remainingBurst.getD i 0 = 0 then
          let turnaround := st.completion - p.arrivalTime + 1
          let totalTurnaround := st.totalTurnaround + turnaround
          let waitingTime := turnaround - p.burstDuration
          let totalWait := st.totalWait + waitingTime
          let lastCompletion := st.completion + 1
          let schedule := st.schedule.set i (some
            { id := p.processID, priority := p.priority, burst := p.burstDuration,
              arrival := p.arrivalTime, wait := waitingTime, turnaround := turnaround,
              completion := st.completion + p.burstDuration })
          let completion := st.completion + p.burstDuration
          let gantt := st.gantt ++ [{ pid := p.processID, start := start, stop := completion }]
          sjfLoop processes fuel
            { serviceTime := serviceTime, totalWait := totalWait,
              totalTurnaround := totalTurnaround, lastCompletion := lastCompletion,
              waitingTime := waitingTime, remainingBurst := remainingBurst,
              schedule := schedule, gantt := gantt, completion := completion }
        else
          sjfLoop processes fuel
            { st with serviceTime := serviceTime, remainingBurst := remainingBurst }
    else some st

/-- Fuel bound for the fuel-indexed loops: every iteration of the Go loop
either advances the time cursor (bounded by the process count while the
loop runs) or decrements one positive remaining burst, so the loop, when it
terminates, does so within this many iterations. -/
def schedulerFuel (processes : List Process) : Nat :=
  processes.length + (processes.map (fun p => p.burstDuration.toNat)).sum + 1

/-- Go func SJFSchedule. -/
def SJFSchedule (processes : List Process) : Option ScheduleResult :=
  (sjfLoop processes (schedulerFuel processes) (sjfInit processes)).map (fun st =>
    let count : Rat := (processes.length : Rat)
    { schedule := st.schedule, gantt := st.gantt,
      aveWait := (st.totalWait : Rat) / count,
      aveTurnaround := (st.totalTurnaround : Rat) / count,
      aveThroughput := count / (st.lastCompletion : Rat) })

/-! ## SJFPrioritySchedule (main.go lines 133-201)

The source of SJFPrioritySchedule is textually identical to SJFSchedule
(same locals, same selection by remaining burst, same loop); it is embedded
separately, mirroring the duplication in the source. -/

def sjfpInit (processes : List Process) : SJFState :=
  { serviceTime := 0, totalWait := 0, totalTurnaround := 0, lastCompletion := 0,
    waitingTime := 0, remainingBurst := getBurstDurations processes,
    schedule := List.replicate processes.length none, gantt := [], completion := 0 }

/-- The nextProcess selection loop of SJFPrioritySchedule (lines 149-157):
it compares remainingBurst values, not Priority fields. -/
def sjfpSelectNext (processes : List Process) (remainingBurst : List Int)
    (completion : Int) : Option Nat :=
  (List.range processes.length).foldl
    (fun nextProcess i =>
      if remainingBurst.getD i 0 > 0 ∧ (processes.getD i default).arrivalTime ≤ completion then
        match nextProcess with
        | none => some i
        | some j => if remainingBurst.getD i 0 < remainingBurst.getD j 0 then some i else nextProcess
      else nextProcess)
    none

/-- The outer for-loop of SJFPrioritySchedule. -/
def sjfpLoop (processes : List Process) : Nat → SJFState → Option SJFState
  | 0, _ => none
  | Nat.succ fuel, st =>
    if st.completion < (processes.length : Int) then
      match sjfpSelectNext processes st.remainingBurst st.completion with
      | none => sjfpLoop processes fuel { st with completion := st.completion + 1 }
      | some i =>
        let p := processes.getD i default
        let start := st.completion
        let serviceTime := st.serviceTime + 1
        let remainingBurst := st.remainingBurst.set i (st.remainingBurst.getD i 0 - 1)
        if remainingBurst.getD i 0 = 0 then
          let turnaround := st.completion - p.arrivalTime + 1
          let totalTurnaround := st.totalTurnaround + turnaround
          let waitingTime := turnaround - p.burstDuration
          let totalWait := st.totalWait + waitingTime
          let lastCompletion := st.completion + 1
          let schedule := st.schedule.set i (some
            { id := p.processID, priority := p.priority, burst := p.burstDuration,
              arrival := p.arrivalTime, wait := waitingTime, turnaround := turnaround,
              completion := st.completion + p.burstDuration })
          let completion := st.completion + p.burstDuration
          let gantt := st.gantt ++ [{ pid := p.processID, start := start, stop := completion }]
          sjfpLoop processes fuel
            { serviceTime := serviceTime, totalWait := totalWait,
              totalTurnaround := totalTurnaround, lastCompletion := lastCompletion,
              waitingTime := waitingTime, remainingBurst := remainingBurst,
              schedule := schedule, gantt := gantt, completion := completion }
        else
          sjfpLoop processes fuel
            { st with serviceTime := serviceTime, remainingBurst := remainingBurst }
    else some st

/-- Go func SJFPrioritySchedule. -/
def SJFPrioritySchedule (processes : List Process) : Option ScheduleResult :=
  (sjfpLoop processes (schedulerFuel processes) (sjfpInit processes)).map (fun st =>
    let count : Rat := (processes.length : Rat)
    { schedule := st.schedule, gantt := st.gantt,
      aveWait := (st.totalWait : Rat) / count,
      aveTurnaround := (st.totalTurnaround : Rat) / count,
      aveThroughput := count / (st.lastCompletion : Rat) })

/-! ## RRSchedule (main.go lines 279-360) -/

/-- The quantum local of RRSchedule (hard-coded to 2 in the source). -/
def quantum : Int := 2

/-- The mutable locals of RRSchedule (same shape as the SJF state). -/
structure RRState where
  serviceTime : Int
  totalWait : Int
  totalTurnaround : Int
  lastCompletion : Int
  waitingTime : Int
  remainingBurst : List Int
  schedule : List (Option Row)
  gantt : List TimeSlice
  completion : Int
deriving Repr, DecidableEq

def rrInit (processes : List Process) : RRState :=
  { serviceTime := 0, totalWait := 0, totalTurnaround := 0, lastCompletion := 0,
    waitingTime := 0, remainingBurst := getBurstDurations processes,
    schedule := List.replicate processes.length none, gantt := [], completion := 0 }

/-- One full pass of the inner for-loop of RRSchedule over all process
indices (lines 297-349). In the branch where the process completes, the
time cursor is advanced by the full BurstDuration of the process (line 317)
even though only remainingBurst units were executed, exactly as in the
source. -/
def rrPass (processes : List Process) (st0 : RRState) : RRState :=
  (List.range processes.length).foldl
    (fun st i =>
      let p := processes.getD i default
      if st.remainingBurst.getD i 0 > 0 ∧ p.arrivalTime ≤ st.completion then
        let start := st.completion
        let serviceTime := st.serviceTime + 1
        if st.remainingBurst.getD i 0 ≤ quantum then
          let waitingTime := st.completion - p.arrivalTime
          let turnaround := waitingTime + st.remainingBurst.getD i 0
          let totalWait := st.totalWait + waitingTime
          let totalTurnaround := st.totalTurnaround + turnaround
          let lastCompletion := st.completion + st.remainingBurst.getD i 0
          let schedule := st.schedule.set i (some
            { id := p.processID, priority := p.priority, burst := p.burstDuration,
              arrival := p.arrivalTime, wait := waitingTime, turnaround := turnaround,
              completion := st.completion + st.remainingBurst.getD i 0 })
          let completion := st.completion + p.burstDuration
          let gantt := st.gantt ++ [{ pid := p.processID, start := start, stop := completion }]
          let remainingBurst := st.remainingBurst.set i 0
          { serviceTime := serviceTime, totalWait := totalWait,
            totalTurnaround := totalTurnaround, lastCompletion := lastCompletion,
            waitingTime := waitingTime, remainingBurst := remainingBurst,
            schedule := schedule, gantt := gantt, completion := completion }
        else
          let waitingTime := st.completion - p.arrivalTime
          let turnaround := waitingTime + quantum
          let totalWait := st.totalWait + waitingTime
          let totalTurnaround := st.totalTurnaround + turnaround
          let lastCompletion := st.completion + quantum
          let schedule := st.schedule.set i (some
            { id := p.processID, priority := p.priority, burst := p.burstDuration,
              arrival := p.arrivalTime, wait := waitingTime, turnaround := turnaround,
              completion := st.completion + quantum })
          let completion := st.completion + quantum
          let gantt := st.gantt ++ [{ pid := p.processID, start := start, stop := completion }]
          let remainingBurst := st.remainingBurst.set i (st.remainingBurst.getD i 0 - quantum)
          { serviceTime := serviceTime, totalWait := totalWait,
            totalTurnaround := totalTurnaround, lastCompletion := lastCompletion,
            waitingTime := waitingTime, remainingBurst := remainingBurst,
            schedule := schedule, gantt := gantt, completion := completion }
      else st)
    st0

/-- The outer for-loop of RRSchedule (condition: completion strictly below
the number of processes, checked once per full pass). -/
def rrLoop (processes : List Process) : Nat → RRState → Option RRState
  | 0, _ => none
  | Nat.succ fuel, st =>
    if st.completion < (processes.length : Int) then
      rrLoop processes fuel (rrPass processes st)
    else some st

/-- Go func RRSchedule. -/
def RRSchedule (processes : List Process) : Option ScheduleResult :=
  (rrLoop processes (schedulerFuel processes) (rrInit processes)).map (fun st =>
    let count : Rat := (processes.length : Rat)
    { schedule := st.schedule, gantt := st.gantt,
      aveWait := (st.totalWait : Rat) / count,
      aveTurnaround := (st.totalTurnaround : Rat) / count,
      aveThroughput := count / (st.lastCompletion : Rat) })

/-! ## Concrete inputs -/

/-- The spec scenario: ids 1, 2, 3 with bursts 24, 3, 3, all arriving at 0.
Process fields are in source order: processID, arrivalTime, burstDuration,
priority. -/
def procs123 : List Process := [⟨1, 0, 24, 0⟩, ⟨2, 0, 3, 0⟩, ⟨3, 0, 3, 0⟩]

/-- Two processes whose burst order is opposite to their priority order:
process 1 has burst 1 and priority 2, process 2 has burst 5 and priority 1. -/
def procsPrio : List Process := [⟨1, 0, 1, 2⟩, ⟨2, 0, 5, 1⟩]

/-- A single process with burst 3 (above the quantum of 2), arriving at 0. -/
def procSingle : List Process := [⟨1, 0, 3, 0⟩]

/-- A single process arriving at time 5 with burst 2. -/
def procLateArrival : List Process := [⟨1, 5, 2, 0⟩]

/-- A single process arriving at time 3 with burst 2. -/
def procLate2 : List Process := [⟨1, 3, 2, 0⟩]

/-- A single process with a negative burst duration. -/
def procNegBurst : List Process := [⟨1, 0, -1, 0⟩]

/-- Two time intervals overlap when each starts before the other stops. -/
def overlaps (a b : TimeSlice) : Prop := a.start < b.stop ∧ b.start < a.stop

instance (a b : TimeSlice) : Decidable (overlaps a b) := by
  unfold overlaps; infer_instance

/-! ## Equality of the two SJF embeddings (used by claim C10) -/

theorem sjfpInit_eq_sjfInit (processes : List Process) :
    sjfpInit processes = sjfInit processes := rfl

theorem sjfpSelectNext_eq_sjfSelectNext (processes : List Process) (remainingBurst : List Int)
    (completion : Int) :
    sjfpSelectNext processes remainingBurst completion =
      sjfSelectNext processes remainingBurst completion := rfl

theorem sjfpLoop_eq_sjfLoop (processes : List Process) :
    ∀ fuel st, sjfpLoop processes fuel st = sjfLoop processes fuel st := by
  intro fuel
  induction fuel with
  | zero => intro st; rfl
  | succ n ih =>
    intro st
    simp only [sjfpLoop, sjfLoop, sjfpSelectNext_eq_sjfSelectNext, ih]

/-! ## Claims -/

/-- Claim C1 (refuted; code bug). On the spec scenario with bursts 24, 3, 3
all arriving at 0, FCFSSchedule produces waits 0, 0, 0, turnarounds 24, 3, 3
and average wait 0, because waitingTime is only reassigned when ArrivalTime
is positive; the claim expects waits 0, 24, 27, turnarounds 24, 27, 30 and
average wait 17. This theorem records what the code computes there. -/
theorem c1_fcfs_scenario_code_result :
    (FCFSSchedule procs123).schedule =
      [some { id := 1, priority := 0, burst := 24, arrival := 0, wait := 0,
              turnaround := 24, completion := 24 },
       some { id := 2, priority := 0, burst := 3, arrival := 0, wait := 0,
              turnaround := 3, completion := 3 },
       some { id := 3, priority := 0, burst := 3, arrival := 0, wait := 0,
              turnaround := 3, completion := 3 }] ∧
    (FCFSSchedule procs123).aveWait = 0 := by
  refine ⟨rfl, ?_⟩
  have h : (FCFSSchedule procs123).aveWait = (0 : Rat) / 3 := rfl
  rw [h]
  norm_num

/-- Claim C2 (refuted; code bug). The SJF loop runs while the time cursor is
strictly below the number of processes, so on the scenario with bursts
24, 3, 3 it exits normally (the result is some, not a fuel timeout) after
scheduling only process 2, leaving the table rows of processes 1 and 3
unassigned: not every process completes and rows are missing. -/
theorem c2_sjf_leaves_processes_unscheduled :
    (SJFSchedule procs123).map ScheduleResult.schedule =
      some [none,
        some { id := 2, priority := 0, burst := 3, arrival := 0, wait := -2,
               turnaround := 1, completion := 3 },
        none] := by
  exact rfl

/-- Claim C3 (refuted; code bug). With process 1 of burst 1 and priority 2
and process 2 of burst 5 and priority 1 both arriving at 0,
SJFPrioritySchedule runs process 1 first: its selection loop compares
remaining burst, never the Priority field, so the process with the smaller
priority value is not chosen. -/
theorem c3_priority_selection_ignores_priority :
    (SJFPrioritySchedule procsPrio).map ScheduleResult.gantt =
      some [{ pid := 1, start := 0, stop := 1 }, { pid := 2, start := 1, stop := 6 }] := by
  exact rfl

/-- Claim C4 (refuted; code bug). On the scenario with bursts 24, 3, 3, the
SJF embedding emits a single timeline segment for process 2, records for it
wait -2 and turnaround 1, leaves processes 1 and 3 without rows, and
reports average wait -2/3, not the claimed order 2, 3, 1 with waits 0, 3, 6
and average wait 3. -/
theorem c4_sjf_scenario_code_result :
    (SJFSchedule procs123).map (fun r => (r.gantt, r.aveWait)) =
      some ([{ pid := 2, start := 0, stop := 3 }], (-2 : Rat) / 3) := by
  exact rfl

/-- Claim C5 (refuted; code bug). A single process of burst 3 under
round-robin with quantum 2 should need two segments, yet RRSchedule emits
exactly one segment, from 0 to 2, and then stops: after that segment the
time cursor (2) is no longer below the process count (1), so the loop
exits with the process still holding remaining burst 1. -/
theorem c5_rr_single_process_segment_count :
    (RRSchedule procSingle).map ScheduleResult.gantt =
      some [{ pid := 1, start := 0, stop := 2 }] ∧
    (3 + quantum - 1) / quantum = (2 : Int) := by
  exact ⟨rfl, rfl⟩

/-- Claim C6 (refuted; code bug). For a single process arriving at 5 with
burst 2, the claimed formula gives wait max(0, 0 - 5) = 0, but FCFSSchedule
records wait -5: the code computes serviceTime minus arrival with no
clamping at 0, so the wait can be negative. -/
theorem c6_fcfs_wait_can_be_negative :
    (FCFSSchedule procLateArrival).schedule =
      [some { id := 1, priority := 0, burst := 2, arrival := 5, wait := -5,
              turnaround := -3, completion := 2 }] ∧
    max 0 ((0 : Int) - 5) = 0 := by
  exact ⟨rfl, rfl⟩

/-- Claim C7 (refuted; code bug). The invariant waitTime nonnegative fails:
for a single process arriving at 3 with burst 2, the FCFS row carries
wait -3, which is negative. -/
theorem c7_wait_nonnegative_violated :
    ((FCFSSchedule procLate2).schedule.map (Option.map Row.wait)) = [some (-3)] ∧
    ¬ ((-3 : Int) ≥ 0) := by
  refine ⟨rfl, ?_⟩
  decide

/-- Claim C8 (refuted; code bug). On the scenario with bursts 24, 3, 3 all
arriving at 0, every FCFS timeline segment starts at 0 (start is wait plus
arrival, and all waits are 0), so the segments of processes 1 and 2 overlap
on the whole interval from 0 to 24. -/
theorem c8_fcfs_segments_overlap :
    (FCFSSchedule procs123).gantt =
      [{ pid := 1, start := 0, stop := 24 }, { pid := 2, start := 0, stop := 27 },
       { pid := 3, start := 0, stop := 30 }] ∧
    overlaps { pid := 1, start := 0, stop := 24 } { pid := 2, start := 0, stop := 27 } := by
  refine ⟨rfl, ?_⟩
  decide

/-- Claim C9 (refuted; code bug). No scheduling entry point performs any
validation: FCFSSchedule on the empty process set proceeds all the way to
the averages and divides by the process count 0, as the statement exhibits
(over Rat the divisions 0 / 0 evaluate to 0; the Go float64 divisions
yield NaN), and a process with negative burst -1 flows through unrejected,
producing a row with turnaround -1. -/
theorem c9_no_input_validation :
    FCFSSchedule [] =
      { schedule := [], gantt := [], aveWait := (0 : Rat) / 0, aveTurnaround := (0 : Rat) / 0,
        aveThroughput := (0 : Rat) / 0 } ∧
    (FCFSSchedule procNegBurst).schedule =
      [some { id := 1, priority := 0, burst := -1, arrival := 0, wait := 0,
              turnaround := -1, completion := -1 }] := by
  exact ⟨rfl, rfl⟩

/-- Claim C10 (confirmed). SJFSchedule and SJFPrioritySchedule are
extensionally equal: the two source functions are textually identical (same
state, same selection by remaining burst, same loop and averages), so on
every input they produce the same rows, timeline and metrics. -/
theorem c10_sjf_priority_extensionally_equal (processes : List Process) :
    SJFPrioritySchedule processes = SJFSchedule processes := by
  unfold SJFPrioritySchedule SJFSchedule
  rw [sjfpLoop_eq_sjfLoop, sjfpInit_eq_sjfInit]
